import Mathlib

/- Shallow embedding of the conversational intent-resolution and action-dispatch
   engine of the storefront server (server/routes.ts).  JS strings are modelled
   by Lean `String` (the source only matches ASCII keywords), JS numbers by
   `Int` for ids/quantities and by `Rat` for prices, ratings and cart totals.
   The two OpenAI round-trips and the random coupon suffix are modelled as
   explicit oracle inputs, so every function here is pure and executable. -/

namespace Clerk

/-! ### Character and string primitives (JS semantics)

`isSpaceChar` models the JS regex class `\s` (the whitespace characters that
actually occur in the data), `isWordChar` models `\w` = ASCII alphanumerics
plus underscore. -/

def isSpaceChar (c : Char) : Bool :=
  c == ' ' || c == '\t' || c == '\n' || c == '\r'

def isWordChar (c : Char) : Bool := c.isAlphanum || c == '_'

def lowerStr (s : String) : String := ⟨s.data.map Char.toLower⟩

def upperStr (s : String) : String := ⟨s.data.map Char.toUpper⟩

/-- startsWithCl pat text : does `text` start with `pat` (exact characters). -/
def startsWithCl : List Char → List Char → Bool
  | [], _ => true
  | _ :: _, [] => false
  | p :: ps, c :: cs => p == c && startsWithCl ps cs

/-- containsCl hay pat : JS `hay.includes(pat)`. -/
def containsCl : List Char → List Char → Bool
  | [], pat => startsWithCl pat []
  | c :: rest, pat => startsWithCl pat (c :: rest) || containsCl rest pat

def endsWithCl (text pat : List Char) : Bool :=
  startsWithCl pat.reverse text.reverse

def strContains (hay pat : String) : Bool := containsCl hay.data pat.data

def strStarts (s pat : String) : Bool := startsWithCl pat.data s.data

/-- testAny s pats : JS `/(p1|p2|...)/.test(s)` for literal alternatives
(a plain substring test, no anchors). -/
def testAny (s : String) (pats : List String) : Bool :=
  pats.any fun p => strContains s p

/-- trimCl models JS `String.prototype.trim` (strip leading/trailing whitespace). -/
def trimCl (cs : List Char) : List Char :=
  ((cs.dropWhile isSpaceChar).reverse.dropWhile isSpaceChar).reverse

def strTrim (s : String) : String := ⟨trimCl s.data⟩

/-- splitWordsAux isSep cs acc : maximal runs of non-separator characters
(the nonempty pieces of a JS `split` on a one-or-more-separators regex). -/
def splitWordsAux (isSep : Char → Bool) : List Char → List Char → List (List Char)
  | [], acc => if acc.isEmpty then [] else [acc.reverse]
  | c :: rest, acc =>
    if isSep c then
      if acc.isEmpty then splitWordsAux isSep rest []
      else acc.reverse :: splitWordsAux isSep rest []
    else splitWordsAux isSep rest (c :: acc)

def splitWordsBy (isSep : Char → Bool) (cs : List Char) : List (List Char) :=
  splitWordsAux isSep cs []

/-- sanitizeChar models one character step of
`.replace(/[^a-z0-9\s]/g, " ")` applied after `.toLowerCase()`. -/
def sanitizeChar (c : Char) : Char :=
  if ('a' ≤ c && c ≤ 'z') || ('0' ≤ c && c ≤ '9') || isSpaceChar c then c else ' '

def joinSpace : List (List Char) → List Char
  | [] => []
  | [w] => w
  | w :: ws => w ++ ' ' :: joinSpace ws

def normChars (cs : List Char) : List Char :=
  joinSpace (splitWordsBy isSpaceChar (cs.map fun c => sanitizeChar (Char.toLower c)))

/-- normalizeText: lowercase, collapse every non-alphanumeric character to a
space, collapse whitespace runs, trim (routes.ts `normalizeText`). -/
def normalizeText (s : String) : String := ⟨normChars s.data⟩

/-- normWords s : the words of `normalizeText s`, used to decide the
word-boundary (`\b`) regex tests the source performs on normalized text. -/
def normWords (s : String) : List String :=
  (splitWordsBy isSpaceChar (s.data.map fun c => sanitizeChar (Char.toLower c))).map
    fun w => ⟨w⟩

def hasExactWord (ws : List String) (w : String) : Bool := ws.contains w

/-- seqStarts pat ws : `ws` begins with the word sequence `pat`. -/
def seqStarts : List String → List String → Bool
  | [], _ => true
  | _ :: _, [] => false
  | p :: ps, w :: rest => p == w && seqStarts ps rest

/-- hasWordSeq ws seq : `seq` occurs as consecutive whole words of `ws`
(a multi-word alternative inside a `\b(...)\b` regex on normalized text). -/
def hasWordSeq : List String → List String → Bool
  | [], seq => seq.isEmpty
  | w :: rest, seq => seqStarts seq (w :: rest) || hasWordSeq rest seq

/-! ### colorMatches and color extraction (routes.ts lines 528-551) -/

def colorMatches (requestedColor availableColor : String) : Bool :=
  let requested := normalizeText requestedColor
  let available := normalizeText availableColor
  if requested.data.isEmpty || available.data.isEmpty then false
  else if requested == available then true
  else strContains available requested || strContains requested available

def basicColors : List String :=
  ["blue", "red", "green", "black", "white", "brown", "tan", "grey", "gray",
   "navy", "beige", "pink", "gold", "silver", "olive", "khaki"]

def extractRequestedColor (message : String) : Option String :=
  let normalized := normalizeText message
  basicColors.find? fun color => strContains normalized color

/-! ### extractRequestedQuantity (routes.ts lines 589-595)

The source regex is a 1-2 digit number at a word boundary, optionally
followed by whitespace and one of the unit suffixes, ending at a word
boundary; `findQtyAux` is that regex's leftmost-match search (with the
backtracking behaviour worked out: after the digits, a following whitespace
character always lets the empty suffix alternative close the match). -/

def qtySuffixes : List (List Char) :=
  ["x".data, "qty".data, "quantity".data, "pieces".data, "piece".data]

/-- startsWithCI pat text : case-insensitive prefix test, `pat` given lowercase. -/
def startsWithCI : List Char → List Char → Bool
  | [], _ => true
  | _ :: _, [] => false
  | p :: ps, c :: cs => p == Char.toLower c && startsWithCI ps cs

def boundaryHead : List Char → Bool
  | [] => true
  | d :: _ => !isWordChar d

def afterDigitsOk (rest : List Char) : Bool :=
  match rest with
  | [] => true
  | c :: _ =>
    if isSpaceChar c then true
    else if !isWordChar c then true
    else qtySuffixes.any fun suf =>
      startsWithCI suf rest && boundaryHead (rest.drop suf.length)

def digitVal (c : Char) : Int := ((c.toNat - '0'.toNat : Nat) : Int)

def findQtyAux : Option Char → List Char → Option Int
  | _, [] => none
  | prev, c :: tail =>
    let attempt : Option Int :=
      if (match prev with | none => true | some p => !isWordChar p) && c.isDigit then
        match tail with
        | d :: tail2 =>
          if d.isDigit then
            if afterDigitsOk tail2 then some (10 * digitVal c + digitVal d) else none
          else if afterDigitsOk tail then some (digitVal c) else none
        | [] => some (digitVal c)
      else none
    match attempt with
    | some n => some n
    | none => findQtyAux (some c) tail

def extractRequestedQuantity (message : String) : Int :=
  match findQtyAux none message.data with
  | none => 1
  | some qty => max 1 (min 10 qty)

/-! ### Affirmative / negative responses (routes.ts lines 597-605) -/

def isAffirmativeResponse (message : String) : Bool :=
  let ws := normWords message
  ["yes", "yeah", "yep", "yup", "sure", "ok", "okay", "proceed", "checkout"].any
      (fun w => hasExactWord ws w) ||
    hasWordSeq ws ["go", "ahead"] || hasWordSeq ws ["lets", "go"] ||
    hasWordSeq ws ["let", "s", "go"]

def isNegativeResponse (message : String) : Bool :=
  let ws := normWords message
  ["no", "nah", "nope", "later", "wait", "stop", "cancel"].any
      (fun w => hasExactWord ws w) ||
    hasWordSeq ws ["not", "now"]

/-! ### Coupon policy (routes.ts lines 617-644)

The random code suffix `Math.random().toString(36).slice(2,6)` is an oracle
parameter `sfx`; everything else is deterministic. -/

def rudeWords : List String :=
  ["stupid", "idiot", "moron", "worst", "trash", "useless", "hate", "dumb",
   "nonsense", "fat", "ugly", "loser", "shut up", "fool", "jerk"]

def friendlyWords : List String :=
  ["please", "kindly", "thanks", "thank you", "appreciate", "could you",
   "would you", "can you help", "pls"]

def bdayWords : List String := ["birthday", "bday", "anniversary"]

def isRudeReason (reason : String) : Bool := testAny (lowerStr reason) rudeWords

def isFriendlyReason (reason : String) : Bool := testAny (lowerStr reason) friendlyWords

def isBdayReason (reason : String) : Bool := testAny (lowerStr reason) bdayWords

def maxDiscountFromBottomPrice (cartTotal : ℚ) : Nat :=
  if cartTotal ≥ 300 then 20 else if cartTotal ≥ 150 then 15 else 10

structure Coupon where
  discountAmount : Nat
  code : String
deriving Repr, DecidableEq

def buildCouponFromReason (reason : String) (cartTotal : ℚ) (sfx : String) : Coupon :=
  let rude := isRudeReason reason
  let friendly := isFriendlyReason reason
  let base : Nat × String :=
    if rude then (0, "NODEAL")
    else if isBdayReason reason then (20, "BDAY")
    else if friendly then (7, "KIND")
    else (5, "SAVE")
  let d : Nat :=
    if base.1 > 0 then min base.1 (maxDiscountFromBottomPrice cartTotal) else base.1
  -- `Math.abs(discountAmount)` in the source is the identity here: d is a Nat.
  { discountAmount := d, code := base.2 ++ "-" ++ toString d ++ "-" ++ upperStr sfx }

/-! ### Catalog data model (shared/schema.ts) -/

structure Product where
  id : Int
  name : String
  description : String
  price : ℚ
  rating : ℚ
  category : String
  colors : List String
  stock : Int
  image : String
deriving Repr, DecidableEq

/-! ### JS array helpers

`jsSortBy` models the (stable) `Array.prototype.sort` with a numeric
comparator: `strictBefore a b` holds iff `comparator(a, b) < 0`; ties keep
their original relative order.  `jsTake` models `.slice(0, limit)` including
the negative-limit convention. -/

def insertBy (strictBefore : α → α → Bool) (a : α) : List α → List α
  | [] => [a]
  | b :: bs => if strictBefore a b then a :: b :: bs else b :: insertBy strictBefore a bs

def jsSortBy (strictBefore : α → α → Bool) (l : List α) : List α :=
  l.foldl (fun acc a => insertBy strictBefore a acc) []

def jsTake (l : List α) (limit : Int) : List α :=
  if limit < 0 then l.take (l.length - limit.natAbs) else l.take limit.toNat

/-! ### Product type / vibe inference (routes.ts lines 235-275)

Each regex family `\bnoun(s)?\b` over the normalized name+description is a
whole-word test; the `fedora(s)?\b`, `tote(s)?\b` and `duffel\b` alternatives
lack a leading `\b`, so they are end-of-word suffix tests. -/

def wordAny (ws : List String) (alts : List String) : Bool :=
  alts.any fun a => hasExactWord ws a

def endsAny (ws : List String) (alts : List String) : Bool :=
  ws.any fun w => alts.any fun a => endsWithCl w.data a.data

def inferProductTypes (product : Product) : List String :=
  let ws := normWords (product.name ++ " " ++ product.description)
  let tests : List (String × Bool) :=
    [("boots", wordAny ws ["boot", "boots"]),
     ("loafers", wordAny ws ["loafer", "loafers"]),
     ("espadrilles", wordAny ws ["espadrille", "espadrilles"]),
     ("sunglasses", wordAny ws ["sunglass", "sunglasses"]),
     ("shirts", wordAny ws ["shirt", "shirts"]),
     ("dress", wordAny ws ["dress", "dresses"]),
     ("blazer", wordAny ws ["blazer", "blazers"]),
     ("chinos", wordAny ws ["chino", "chinos"]),
     ("tie", wordAny ws ["tie", "ties"]),
     ("belt", wordAny ws ["belt", "belts"]),
     ("watch", wordAny ws ["watch", "watches"]),
     ("hat", wordAny ws ["hat", "hats"] || endsAny ws ["fedora", "fedoras"]),
     ("bag", wordAny ws ["bag", "bags"] || endsAny ws ["tote", "totes", "duffel"])]
  let hits := (tests.filter fun t => t.2).map fun t => t.1
  if !hits.isEmpty then hits
  else if product.category == "Footwear" then ["shoes"]
  else if product.category == "Clothing" then ["clothing"]
  else if product.category == "Accessories" then ["accessories"]
  else []

def inferProductVibes (product : Product) : List String :=
  let ws := normWords (product.name ++ " " ++ product.description)
  -- The `smart-casual` alternative of the last regex cannot match normalized
  -- text (hyphens are collapsed to spaces), so only the other two remain.
  let tests : List (String × Bool) :=
    [("luxury", wordAny ws ["silk", "italian", "handmade", "luxury", "premium",
        "cashmere", "suede", "leather"] || hasWordSeq ws ["full", "grain"]),
     ("formal", wordAny ws ["formal", "elegant", "classic", "suit", "wedding",
        "oxford", "blazer", "tie"]),
     ("casual", wordAny ws ["casual", "everyday", "relaxed", "weekend", "denim",
        "canvas"]),
     ("minimal", wordAny ws ["minimal", "clean", "minimalist"]),
     ("summer", wordAny ws ["summer", "linen", "lightweight", "breathable"]),
     ("smart-casual", hasWordSeq ws ["smart", "casual"] || wordAny ws ["versatile"])]
  let vibes := (tests.filter fun t => t.2).map fun t => t.1
  if !vibes.isEmpty then vibes
  else if product.category == "Footwear" then ["smart-casual"]
  else if product.category == "Clothing" then ["casual"]
  else if product.category == "Accessories" then ["minimal"]
  else []

/-! ### Shopper profile (routes.ts lines 34-45, 70-116) -/

inductive SortOrder
  | price_asc
  | price_desc
  | rating
deriving Repr, DecidableEq

structure ShopperProfile where
  viewedCategories : List String
  addedProductIds : List Int
  recentlyViewedProductIds : List Int
  preferredSort : Option SortOrder
  lastMentionedProductId : Option Int
  lastShownProductIds : List Int
  lastQuery : String
  awaitingCheckoutConfirmation : Bool
deriving Repr, DecidableEq

def emptyProfile : ShopperProfile :=
  { viewedCategories := [], addedProductIds := [], recentlyViewedProductIds := [],
    preferredSort := none, lastMentionedProductId := none, lastShownProductIds := [],
    lastQuery := "", awaitingCheckoutConfirmation := false }

/-- pushUniqueAll: the in-place push loop of `pushUnique` (skip values already
present; the `Number.isFinite` filter is the identity on `Int`). -/
def pushUniqueAll (list values : List Int) : List Int :=
  values.foldl (fun acc value => if acc.contains value then acc else acc ++ [value]) list

/-- pushUnique with the source's default bound `max = 24`: when the deduplicated
list exceeds the bound, `slice(length - max)` keeps only the newest 24. -/
def pushUnique (list values : List Int) : List Int :=
  let l := pushUniqueAll list values
  if l.length > 24 then l.drop (l.length - 24) else l

/-! ### semanticSearchProducts: deterministic keyword-score fallback
(routes.ts lines 118-166) -/

structure SemanticOptions where
  category : Option String
  maxPrice : Option ℚ
  minRating : Option ℚ
  limit : Option Int
  profile : Option ShopperProfile
deriving Repr, DecidableEq

def semanticSearchProducts (products : List Product) (query : String)
    (options : SemanticOptions) : List Product :=
  let q := lowerStr query
  let tokens : List String :=
    (splitWordsBy (fun c => !isWordChar c) q.data).map fun w => ⟨w⟩
  let limit := options.limit.getD 4
  let filtered := products.filter fun p =>
    (match options.category with
     | some c => lowerStr p.category == lowerStr c
     | none => true) &&
    (match options.maxPrice with
     | some m => decide (p.price ≤ m)
     | none => true) &&
    (match options.minRating with
     | some m => decide (p.rating ≥ m)
     | none => true)
  let scored := filtered.map fun product =>
    let haystack :=
      lowerStr (product.name ++ " " ++ product.description ++ " " ++ product.category)
    let productTypes := inferProductTypes product
    let productVibes := inferProductVibes product
    let tokenScore : ℚ := tokens.foldl (fun acc token =>
      acc + (if strContains haystack token then 2 else 0)
          + (if productTypes.any (fun t => strContains t token || strContains token t)
             then (5 : ℚ) / 2 else 0)
          + (if productVibes.any (fun v => strContains v token || strContains token v)
             then 2 else 0)) 0
    let profileScore : ℚ :=
      match options.profile with
      | some profile =>
        (if profile.viewedCategories.contains product.category then (3 : ℚ) / 2 else 0)
          + (if profile.recentlyViewedProductIds.contains product.id then 2 else 0)
          + (if profile.addedProductIds.contains product.id then 1 else 0)
      | none => 0
  (product, tokenScore + profileScore + product.rating)
  (jsTake (jsSortBy (fun a b => a.2 > b.2) scored) limit).map fun e => e.1

/-! ### Intent signals (routes.ts lines 168-322) -/

structure IntentSignals where
  wantsProducts : Bool
  category : Option String
  productTypes : List String
  vibes : List String
deriving Repr, DecidableEq

def categorySynonym (token : String) : Option String :=
  if ["footwear", "footware", "foorwear", "fotwear", "fowear", "shoe", "shoes",
      "shoez", "sneaker", "sneakers", "boot", "boots", "loafer", "loafers",
      "sandal", "sandals"].contains token then some "Footwear"
  else if ["clothing", "clothes", "cloths", "clohtes", "apparel", "outfit",
      "outfits", "wear"].contains token then some "Clothing"
  else if ["accessory", "accessories", "accessorie", "accecories", "accesorries",
      "bag", "bags", "tie", "ties", "belt", "belts", "watch", "watches",
      "sunglasses", "sunglass", "shades", "shade"].contains token then
    some "Accessories"
  else none

def vibeKeyword (token : String) : Option String :=
  if ["formal", "classy", "elegant"].contains token then some "formal"
  else if ["premium", "luxury"].contains token then some "luxury"
  else if ["casual", "everyday"].contains token then some "casual"
  else if ["smart", "smartcasual"].contains token then some "smart-casual"
  else if ["minimal", "minimalist"].contains token then some "minimal"
  else if token == "summer" then some "summer"
  else if token == "wedding" then some "occasion"
  else none

def typeAliases : List (String × List String) :=
  [("boots", ["boots", "boot"]),
   ("loafers", ["loafers", "loafer"]),
   ("shoes", ["shoes", "shoe", "shoez", "footwear", "footware", "fowear",
      "sneakers", "sneaker", "espadrilles", "espadrille"]),
   ("ties", ["ties", "tie"]),
   ("shirts", ["shirts", "shirt", "oxford shirt"]),
   ("dress", ["dress", "dresses"]),
   ("blazer", ["blazer", "blazers"]),
   ("chinos", ["chinos", "chino"]),
   ("sunglasses", ["sunglasses", "sunglass", "sun glasses", "shade", "shades",
      "aviator"]),
   ("watch", ["watch", "watches"]),
   ("bag", ["bag", "bags", "tote", "duffel"])]

def tokenizeSearchQuery (query : String) : List String :=
  (((splitWordsBy (fun c => !(('a' ≤ c && c ≤ 'z') || ('0' ≤ c && c ≤ '9')))
      (lowerStr query).data).map fun w => (⟨w⟩ : String)).filter
    fun token => token.length ≥ 2)

def detectIntentSignals (message : String) (catalog : List Product) : IntentSignals :=
  let normalizedMessage := normalizeText message
  let tokens := tokenizeSearchQuery normalizedMessage
  let categories := catalog.map fun p => p.category
  -- the loop overwrites `category` on every catalog-backed synonym hit
  let category := tokens.foldl (fun acc token =>
    match categorySynonym token with
    | some c => if categories.contains c then some c else acc
    | none => acc) none
  let vibes := tokens.foldl (fun acc token =>
    match vibeKeyword token with
    | some v => if acc.contains v then acc else acc ++ [v]
    | none => acc) []
  let productTypes := (typeAliases.filter fun ta =>
    ta.2.any fun al => strContains normalizedMessage al).map fun ta => ta.1
  let wantsProducts :=
    testAny normalizedMessage ["need", "want", "show", "find", "looking", "search",
      "recommend", "suggest", "shop", "browse", "see"] ||
    category.isSome || !productTypes.isEmpty || !vibes.isEmpty
  { wantsProducts, category, productTypes, vibes }

/-! ### filterProductsByIntent (routes.ts lines 324-347) -/

def ratingDescBefore (a b : Product) : Bool := a.rating > b.rating

def filterProductsByIntent (catalog : List Product) (intent : IntentSignals)
    (limit : Int) : List Product :=
  let filtered := catalog
  let filtered := match intent.category with
    | some c => filtered.filter fun p => p.category == c
    | none => filtered
  let filtered :=
    if intent.productTypes.isEmpty then filtered
    else
      let next := filtered.filter fun p =>
        intent.productTypes.any fun t => (inferProductTypes p).contains t
      if next.isEmpty then filtered else next
  let filtered :=
    if intent.vibes.isEmpty then filtered
    else
      let next := filtered.filter fun p =>
        intent.vibes.any fun v => (inferProductVibes p).contains v
      if next.isEmpty then filtered else next
  jsTake (jsSortBy ratingDescBefore filtered) limit

def buildCatalogQueryFromIntent (rawMessage : String) (intent : IntentSignals) : String :=
  let genericTypes := ["shoes", "clothing", "accessories"]
  match intent.productTypes.find? fun t => !genericTypes.contains t with
  | some specificType => specificType
  | none =>
    if intent.category.isSome then ""
    else match intent.vibes with
      | v :: _ => v
      | [] => strTrim rawMessage

/-! ### dominantCategory / normalizeCategoryFromCatalog (routes.ts lines 384-407) -/

def dedupFirst (l : List String) : List String :=
  l.foldl (fun acc c => if acc.contains c then acc else acc ++ [c]) []

def dominantCategory (products : List Product) : Option String :=
  if products.isEmpty then none
  else
    let cats := dedupFirst (products.map fun p => p.category)
    let counts := cats.map fun c => (c, (products.filter fun p => p.category == c).length)
    (counts.foldl (fun best cn =>
      match best with
      | none => some cn
      | some b => if cn.2 > b.2 then some cn else some b) none).map fun b => b.1

def normalizeCategoryFromCatalog (category : Option String)
    (catalog : List Product) : Option String :=
  match category with
  | none => none
  | some c =>
    let normalized := lowerStr (strTrim c)
    if normalized.data.isEmpty then none
    else (catalog.find? fun p => lowerStr p.category == normalized).map fun p => p.category

/-! ### Product cards (routes.ts lines 88-102) -/

/-- jsRoundTimes q k models `Math.round(q * k)` (round half upward, i.e.
floor(q*k + 1/2)), computed on the rational's numerator/denominator so that it
stays kernel-reducible. -/
def jsRoundTimes (q : ℚ) (k : Int) : Int :=
  Int.fdiv (2 * k * q.num + (q.den : Int)) (2 * (q.den : Int))

structure ProductCardData where
  id : Int
  name : String
  description : String
  price : ℚ
  rating : ℚ
  reviewsCount : Int
  category : String
  vibes : List String
  stock : Int
  image : String
  url : String
deriving Repr, DecidableEq

def toProductCard (product : Product) : ProductCardData :=
  { id := product.id, name := product.name, description := product.description,
    price := product.price, rating := product.rating,
    reviewsCount := max 24 (jsRoundTimes product.rating 30),
    category := product.category, vibes := inferProductVibes product,
    stock := product.stock, image := product.image,
    url := "/product/" ++ toString product.id }

/-! ### findDirectProductMention (routes.ts lines 553-587) -/

def mentionScore (normalizedMessage : String) (product : Product) : Int :=
  let normalizedName := normalizeText product.name
  let nameTokens := normWords product.name
  let base : Int := if strContains normalizedMessage normalizedName then 100 else 0
  let tokScore : Int := nameTokens.foldl (fun acc token =>
    if token.length ≥ 4 && strContains normalizedMessage token then acc + 8 else acc) 0
  let catScore : Int :=
    if testAny normalizedMessage ["dress", "shirt", "blazer", "chinos", "sunglasses",
        "loafers", "boots", "tie"] then
      (if strContains normalizedMessage (normalizeText product.category) then 3 else 0)
        + nameTokens.foldl (fun acc token =>
            if token.length ≥ 4 && strContains normalizedMessage token then acc + 3
            else acc) 0
        + (normWords product.description).foldl (fun acc token =>
            if token.length ≥ 6 && strContains normalizedMessage token then acc + 1
            else acc) 0
    else 0
  base + tokScore + catScore

def findDirectProductMention (message : String) (products : List Product) :
    Option Product :=
  let normalizedMessage := normalizeText message
  let best := products.foldl (fun best product =>
    let score := mentionScore normalizedMessage product
    match best with
    | none => some (product, score)
    | some b => if score > b.2 then some (product, score) else some b) none
  match best with
  | some b => if b.2 ≥ 8 then some b.1 else none
  | none => none

/-! ### aiSelectProducts (routes.ts lines 409-513)

The OpenAI completion inside it is an `Except Unit AiRaw` oracle argument:
`.error` models a thrown network error, `.ok` carries the parsed JSON reply
(ids already filtered to finite numbers; a JSON parse failure is the
defaulted record with no ids and no category). -/

structure AiRaw where
  productIds : List Int
  category : Option String
deriving Repr, DecidableEq

structure AiOptions where
  limit : Option Int
  category : Option String
  productTypes : List String
  vibes : List String
deriving Repr, DecidableEq

/-- catalogMapGet: `new Map(catalog.map(p => [p.id, p])).get id` — on duplicate
ids the last catalog entry wins. -/
def catalogMapGet (catalog : List Product) (id : Int) : Option Product :=
  (catalog.filter fun p => p.id == id).getLast?

structure AiSelectResult where
  products : List Product
  category : Option String
  usedCategoryFallback : Bool
deriving Repr, DecidableEq

def aiSelectProducts (oracle : Except Unit AiRaw) (catalog : List Product)
    (query : String) (options : AiOptions) : Except Unit AiSelectResult :=
  let limit := options.limit.getD 4
  if (strTrim query).data.isEmpty then
    .ok { products := [], category := none, usedCategoryFallback := false }
  else
    match oracle with
    | .error e => .error e
    | .ok parsed =>
      let products0 := parsed.productIds.filterMap fun id => catalogMapGet catalog id
      let modelCategory := normalizeCategoryFromCatalog parsed.category catalog
      let explicitCategory := normalizeCategoryFromCatalog options.category catalog
      let category := explicitCategory <|> modelCategory
      let products1 := match category with
        | some c => products0.filter fun p => p.category == c
        | none => products0
      let products2 :=
        if options.productTypes.isEmpty then products1
        else
          let constrained := products1.filter fun p =>
            (inferProductTypes p).any fun t => options.productTypes.contains t
          if constrained.isEmpty then products1 else constrained
      let products3 :=
        if options.vibes.isEmpty then products2
        else
          let constrained := products2.filter fun p =>
            (inferProductVibes p).any fun v => options.vibes.contains v
          if constrained.isEmpty then products2 else constrained
      if products3.isEmpty then
        match category with
        | some c =>
          let fb := jsTake
            (jsSortBy ratingDescBefore (catalog.filter fun p => p.category == c)) limit
          .ok { products := fb, category := category, usedCategoryFallback := !fb.isEmpty }
        | none =>
          .ok { products := products3, category := category, usedCategoryFallback := false }
      else .ok { products := products3, category := category, usedCategoryFallback := false }

/-! ### pickProductByIdOrName (routes.ts lines 515-526) -/

def pickProductByIdOrName (products : List Product) (productId : Option Int)
    (productName : Option String) : Option Product :=
  match productId with
  | some id => products.find? fun p => p.id == id
  | none =>
    match productName with
    | some name =>
      if (strTrim name).data.isEmpty then none
      else
        let normalized := lowerStr name
        products.find? fun p => strContains (lowerStr p.name) normalized
    | none => none

def buildCardLeadMessage (products : List ProductCardData) : String :=
  match products with
  | [] => "I pulled a few solid picks for you."
  | p :: _ => "Say less. Here are the best " ++ lowerStr p.category ++ " picks right now:"

/-! ### Clerk actions, tool calls and the response envelope
(routes.ts lines 13-18 and the chat endpoint's `res.json` sites) -/

inductive ClerkAction
  | search_products (query : String) (category : Option String)
  | sort_products (sortBy : SortOrder)
  | add_to_cart (productId : Int) (quantity : Int)
  | navigate_checkout
  | apply_coupon (code : String) (discountAmount : Nat) (reason : String)
deriving Repr, DecidableEq

/-- ToolArgs: the typed view of the JSON argument bag of a model tool call;
`none` stands both for an absent field and for a field of the wrong type
(the source guards every read with a `typeof` check or a coercion). -/
structure ToolArgs where
  query : Option String
  category : Option String
  maxPrice : Option ℚ
  minRating : Option ℚ
  limit : Option Int
  productId : Option Int
  productName : Option String
  color : Option String
  quantity : Option Int
  sortBy : Option String
  reason : Option String
deriving Repr, DecidableEq

def emptyToolArgs : ToolArgs :=
  ⟨none, none, none, none, none, none, none, none, none, none, none⟩

structure ToolCall where
  name : String
  args : ToolArgs
deriving Repr, DecidableEq

structure ResponseData where
  productsCount : Nat
  personalized : Bool
deriving Repr, DecidableEq

structure Envelope where
  message : String
  content : String
  action : Option ClerkAction
  actions : List ClerkAction
  products : List ProductCardData
  toolCalls : List ToolCall
  data : ResponseData
  role : String
deriving Repr, DecidableEq

/-- Context: the request body's `context` object (routes.ts lines 718-751);
`none` models an absent or wrongly-typed field.  `lastSuggestedProductIds`
collapses the non-array case to `[]`, which the source treats identically. -/
structure Context where
  cartProductIds : Option (List Int)
  cartTotal : Option ℚ
  activeCategory : Option String
  preferredSort : Option String
  recentlyViewedProductIds : Option (List Int)
  lastSuggestedProductId : Option Int
  lastSuggestedProductIds : List Int
deriving Repr, DecidableEq

def emptyContext : Context := ⟨none, none, none, none, none, none, []⟩

/-- Oracles: the two OpenAI round-trips of a chat turn plus the random coupon
code suffix.  `.error ()` models a thrown call. -/
structure Oracles where
  firstPass : Except Unit (List ToolCall)
  aiSelect : String → AiOptions → Except Unit AiRaw
  freeform : Except Unit (Option String)
  couponSuffix : String

inductive ChatOutcome
  | ok (env : Envelope)
  | badRequest (message : String)
  | serverError (message : String)
deriving Repr, DecidableEq

def ChatOutcome.isServerError : ChatOutcome → Bool
  | .serverError _ => true
  | _ => false

structure TurnResult where
  outcome : ChatOutcome
  profile : ShopperProfile
deriving Repr, DecidableEq

/-! ### Context merge into the profile (routes.ts lines 718-751) -/

def parseSortOrder (s : String) : SortOrder :=
  if s == "price_desc" then .price_desc
  else if s == "rating" then .rating
  else .price_asc

def applyContext (p0 : ShopperProfile) (ctx : Context) (message : String) :
    ShopperProfile :=
  let p := { p0 with lastQuery := message }
  let p := match ctx.recentlyViewedProductIds with
    | some ids => { p with recentlyViewedProductIds := pushUnique p.recentlyViewedProductIds ids }
    | none => p
  let p := match ctx.cartProductIds with
    | some ids => { p with addedProductIds := pushUnique p.addedProductIds ids }
    | none => p
  let p := match ctx.preferredSort with
    | some s =>
      if ["price_asc", "price_desc", "rating"].contains s then
        { p with preferredSort := some (parseSortOrder s) }
      else p
    | none => p
  let p := match ctx.activeCategory with
    | some c =>
      if c != "all" then { p with viewedCategories := p.viewedCategories ++ [c] } else p
    | none => p
  let p := if ctx.lastSuggestedProductIds.isEmpty then p
    else { p with lastShownProductIds := ctx.lastSuggestedProductIds }
  match ctx.lastSuggestedProductId with
  | some id => { p with lastMentionedProductId := some id }
  | none => p

/-! ### Deterministic intent regexes of the orchestrator
(routes.ts lines 785-794, 907, 1319-1342) -/

/-- reVerbPronounAux verb cs : `/(verb\s+(this|that|it))/i` on lowered text. -/
def reVerbPronounAux (verb : List Char) : List Char → Bool
  | [] => false
  | c :: rest =>
    (startsWithCl verb (c :: rest) &&
      (let after := (c :: rest).drop verb.length
       let sp := after.takeWhile isSpaceChar
       !sp.isEmpty &&
         (let tail := after.drop sp.length
          startsWithCl "this".data tail || startsWithCl "that".data tail ||
            startsWithCl "it".data tail))) ||
    reVerbPronounAux verb rest

/-- findWordCartAux prev cs : search for `\bcart\b` without crossing a newline
(the `.` of `/add.*\bcart\b/` does not match line terminators). -/
def findWordCartAux : Char → List Char → Bool
  | _, [] => false
  | prev, c :: rest =>
    if c == '\n' || c == '\r' then false
    else
      (!isWordChar prev && startsWithCl "cart".data (c :: rest) &&
        boundaryHead ((c :: rest).drop 4)) ||
      findWordCartAux c rest

def reAddCartAux : List Char → Bool
  | [] => false
  | c :: rest =>
    (startsWithCl "add".data (c :: rest) && findWordCartAux 'd' ((c :: rest).drop 3)) ||
    reAddCartAux rest

def wantsAddToCart (message : String) : Bool :=
  let l := (lowerStr message).data
  reVerbPronounAux "add".data l || reAddCartAux l ||
    reVerbPronounAux "buy".data l || reVerbPronounAux "checkout".data l

/-- rePriceOffAux : the `price\s*off` alternative of the discount regex. -/
def rePriceOffAux : List Char → Bool
  | [] => false
  | c :: rest =>
    (startsWithCl "price".data (c :: rest) &&
      (let after := (c :: rest).drop 5
       startsWithCl "off".data (after.drop (after.takeWhile isSpaceChar).length))) ||
    rePriceOffAux rest

def wantsDiscount (message : String) : Bool :=
  let l := lowerStr message
  testAny l ["discount", "coupon", "deal", "price cut", "negotiat"] || rePriceOffAux l.data

def referencesCurrentItem (message : String) : Bool :=
  testAny (lowerStr message) ["this", "that", "it", "same one", "that one",
    "last one", "the one"]

def explicitBrowseIntent (message : String) : Bool :=
  testAny (lowerStr message) ["show", "find", "looking for", "search", "recommend",
    "suggest", "browse", "i need", "i want some"]

/-- purchaseIntentTest : `/(add to cart|buy|checkout|purchase)/i`, used by the
direct-mention branch and (with the alternatives reordered, same set) by the
deterministic safety net. -/
def purchaseIntentTest (message : String) : Bool :=
  testAny (lowerStr message) ["add to cart", "buy", "checkout", "purchase"]

def cheapIntentTest (message : String) : Bool :=
  testAny (lowerStr message) ["cheaper", "cheap", "budget", "low price"]

def fallbackDiscountTest (message : String) : Bool :=
  testAny (lowerStr message) ["discount", "coupon", "deal", "birthday", "bday",
    "buying two"]

/-- idTruthy : JS truthiness of a nullable numeric id (`0` is falsy). -/
def idTruthy : Option Int → Bool
  | some id => id != 0
  | none => false

/-- resolveProduct : `directProduct ?? lastMentionedProduct ??
contextSuggestedProduct` (routes.ts lines 796-805), evaluated against the
profile as already updated by the context merge. -/
def resolveProduct (catalog : List Product) (message : String)
    (p : ShopperProfile) (contextLastSuggestedId : Option Int) : Option Product :=
  (findDirectProductMention message catalog) <|>
    (p.lastMentionedProductId.bind fun id => catalog.find? fun q => q.id == id) <|>
    (contextLastSuggestedId.bind fun id => catalog.find? fun q => q.id == id)

/-! ### Tool-call dispatch (routes.ts lines 1079-1281) -/

structure OrchState where
  profile : ShopperProfile
  uiProducts : List ProductCardData
  actions : List ClerkAction
  forced : Option String

def dispatchTool (catalog : List Product) (message : String) (cartTotal : ℚ)
    (orc : Oracles) (s : OrchState) (call : ToolCall) : OrchState :=
  if call.name == "search_products" then
    let rawQuery := call.args.query.getD ""
    let limit : Int := call.args.limit.getD 4
    let toolIntent := detectIntentSignals rawQuery catalog
    let requestedCategory :=
      (normalizeCategoryFromCatalog call.args.category catalog) <|> toolIntent.category
    let aiOpts : AiOptions :=
      { limit := some limit, category := requestedCategory,
        productTypes := toolIntent.productTypes, vibes := toolIntent.vibes }
    let aiOutcome := aiSelectProducts (orc.aiSelect rawQuery aiOpts) catalog rawQuery aiOpts
    let aiTriple :=
      match aiOutcome with
      | .ok r => (r.products, r.category, r.usedCategoryFallback)
      | .error _ => (([] : List Product), (none : Option String), false)
    let results :=
      if aiTriple.1.isEmpty then
        let sem := semanticSearchProducts catalog rawQuery
          { category := requestedCategory, maxPrice := call.args.maxPrice,
            minRating := call.args.minRating, limit := some limit,
            profile := some s.profile }
        let filtered := filterProductsByIntent catalog
          { wantsProducts := true, category := requestedCategory,
            productTypes := toolIntent.productTypes, vibes := toolIntent.vibes } limit
        if filtered.isEmpty then sem else filtered
      else aiTriple.1
    let cards := results.map toProductCard
    let actionCategory :=
      (normalizeCategoryFromCatalog requestedCategory catalog) <|>
        (normalizeCategoryFromCatalog aiTriple.2.1 catalog) <|>
        (dominantCategory results) <|>
        (normalizeCategoryFromCatalog call.args.category catalog)
    let actionQuery :=
      match actionCategory with
      | some _ => buildCatalogQueryFromIntent rawQuery toolIntent
      | none => if aiTriple.2.2 then "" else rawQuery
    { profile := { s.profile with
        viewedCategories := s.profile.viewedCategories ++ results.map (fun p => p.category),
        lastShownProductIds := results.map (fun p => p.id),
        lastMentionedProductId :=
          (results.head?.map fun p => p.id) <|> s.profile.lastMentionedProductId },
      uiProducts := s.uiProducts ++ cards,
      actions := s.actions ++ [.search_products actionQuery actionCategory],
      forced := s.forced }
  else if call.name == "check_inventory" then
    let found0 := pickProductByIdOrName catalog call.args.productId call.args.productName
    let found1 :=
      match found0 with
      | some f => some f
      | none =>
        if idTruthy s.profile.lastMentionedProductId then
          match s.profile.lastMentionedProductId with
          | some id => catalog.find? fun p => p.id == id
          | none => none
        else none
    let found2 :=
      match found1 with
      | some f => some f
      | none =>
        match s.profile.lastShownProductIds with
        | id :: _ => catalog.find? fun p => p.id == id
        | [] => none
    match found2 with
    | none => { s with forced := some "Got you. Drop the product name and color you want." }
    | some found =>
      let requestedColor := call.args.color.map lowerStr
      let forcedText :=
        match requestedColor with
        | some color =>
          if color.data.isEmpty then
            found.name ++ " is in stock, and we’ve got " ++ toString found.stock ++
              " left right now."
          else if found.colors.any fun c => colorMatches color c then
            "Yep, " ++ found.name ++ " is available in " ++ color ++ "."
          else
            found.name ++ " is not available in " ++ color ++ ", but I can show close options."
        | none =>
          found.name ++ " is in stock, and we’ve got " ++ toString found.stock ++
            " left right now."
      { profile := { s.profile with lastMentionedProductId := some found.id },
        uiProducts := s.uiProducts ++ [toProductCard found],
        actions := s.actions, forced := some forcedText }
  else if call.name == "add_to_cart" then
    let quantity : Int := max 1 (match call.args.quantity with
      | some q => if q == 0 then 1 else q
      | none => 1)
    let found : Option Product := match call.args.productId with
      | some productId => catalog.find? fun p => p.id == productId
      | none => none
    match call.args.productId, found with
    | some productId, some f =>
      { profile := { s.profile with
          addedProductIds := s.profile.addedProductIds ++ [productId],
          lastMentionedProductId := some f.id,
          awaitingCheckoutConfirmation := true },
        uiProducts := s.uiProducts,
        actions := s.actions ++ [.add_to_cart productId quantity],
        forced := some ("Bet. I added " ++ toString quantity ++ " x " ++ f.name ++
          " to your cart. Want to proceed to checkout?") }
    | _, _ =>
      { s with forced := some "Couldn’t find that exact one yet. Send the name and I’ll add it fast." }
  else if call.name == "sort_products" then
    let sortBy :=
      match call.args.sortBy with
      | some sb =>
        if sb == "price_desc" then SortOrder.price_desc
        else if sb == "rating" then SortOrder.rating
        else SortOrder.price_asc
      | none => SortOrder.price_asc
    let sorted := (jsTake (jsSortBy (fun a b =>
        match sortBy with
        | .price_desc => a.price > b.price
        | .rating => a.rating > b.rating
        | .price_asc => a.price < b.price) catalog) 4).map toProductCard
    { profile := { s.profile with
        preferredSort := some sortBy,
        lastShownProductIds := sorted.map (fun c => c.id),
        lastMentionedProductId :=
          (sorted.head?.map fun c => c.id) <|> s.profile.lastMentionedProductId },
      uiProducts := s.uiProducts ++ sorted,
      actions := s.actions ++ [.sort_products sortBy],
      forced := some (match sortBy with
        | .price_asc => "Say less. I sorted low-to-high and pulled the best budget-friendly picks below."
        | .price_desc => "Love that. I sorted by premium options and pulled standout high-end picks below."
        | .rating => "Done. I sorted by top-rated products and pulled the strongest-reviewed picks below.") }
  else if call.name == "apply_coupon" then
    let reason := strTrim (call.args.reason.getD "")
    let negotiationSignal := strTrim (message ++ " " ++ reason)
    let coupon := buildCouponFromReason negotiationSignal cartTotal orc.couponSuffix
    { s with
      actions := s.actions ++ [.apply_coupon coupon.code coupon.discountAmount
        (if reason.data.isEmpty then message else reason)],
      forced := some (if coupon.discountAmount > 0 then
          "Nice, your coupon " ++ coupon.code ++ " is live for " ++
            toString coupon.discountAmount ++ "% off."
        else "I can’t apply a discount with that tone right now.") }
  else s

/-! ### Deterministic safety net, personalization backfill and intent guard
(routes.ts lines 1284-1398) -/

def safetyNet (catalog : List Product) (message : String) (cartTotal : ℚ)
    (orc : Oracles) (s : OrchState) : OrchState :=
  if !s.actions.isEmpty then s
  else
    let fallbackQuery := strTrim message
    let s1 :=
      if fallbackQuery.data.isEmpty then s
      else
        let fallbackIntent := detectIntentSignals fallbackQuery catalog
        let aiOpts : AiOptions :=
          { limit := some 4, category := fallbackIntent.category,
            productTypes := fallbackIntent.productTypes, vibes := fallbackIntent.vibes }
        match aiSelectProducts (orc.aiSelect fallbackQuery aiOpts) catalog fallbackQuery aiOpts with
        | .error _ => s
        | .ok aiFallback =>
          if aiFallback.products.isEmpty then s
          else
            let cards := aiFallback.products.map toProductCard
            let actionCategory :=
              (normalizeCategoryFromCatalog fallbackIntent.category catalog) <|>
                (normalizeCategoryFromCatalog aiFallback.category catalog) <|>
                dominantCategory aiFallback.products
            let actionQuery :=
              match actionCategory with
              | some _ => buildCatalogQueryFromIntent fallbackQuery fallbackIntent
              | none => if aiFallback.usedCategoryFallback then "" else fallbackQuery
            { s with
              uiProducts := s.uiProducts ++ cards,
              actions := s.actions ++ [.search_products actionQuery actionCategory],
              forced := some (buildCardLeadMessage cards) }
    if s1.actions.isEmpty && cheapIntentTest message then
      let cheapest := (jsTake (jsSortBy (fun a b => a.price < b.price) catalog) 4).map
        toProductCard
      { s1 with
        actions := s1.actions ++ [.sort_products .price_asc],
        uiProducts := s1.uiProducts ++ cheapest,
        forced := some "Say less. I sorted low-to-high and pulled budget-friendly picks below." }
    else if s1.actions.isEmpty && fallbackDiscountTest message then
      let coupon := buildCouponFromReason message cartTotal orc.couponSuffix
      { s1 with
        actions := s1.actions ++ [.apply_coupon coupon.code coupon.discountAmount message],
        forced := some (if coupon.discountAmount > 0 then
            "Nice, your coupon " ++ coupon.code ++ " is live for " ++
              toString coupon.discountAmount ++ "% off."
          else "I can’t apply a discount with that tone right now.") }
    else if s1.actions.isEmpty && purchaseIntentTest message &&
        idTruthy s1.profile.lastMentionedProductId then
      match s1.profile.lastMentionedProductId with
      | some pid =>
        let s2 := { s1 with
          profile := { s1.profile with awaitingCheckoutConfirmation := true },
          actions := s1.actions ++ [.add_to_cart pid 1] }
        match catalog.find? fun p => p.id == pid with
        | some product =>
          { s2 with forced := some ("Done, I added " ++ product.name ++
              " to your cart. Want to proceed to checkout?") }
        | none => s2
      | none => s1
    else s1

def backfill (catalog : List Product) (s : OrchState) : OrchState :=
  if s.uiProducts.isEmpty && !s.profile.viewedCategories.isEmpty then
    match s.profile.viewedCategories.getLast? with
    | some seed =>
      let personalized := semanticSearchProducts catalog seed
        { category := some seed, maxPrice := none, minRating := none,
          limit := some 3, profile := some s.profile }
      { s with
        profile := { s.profile with
          lastShownProductIds := personalized.map (fun p => p.id),
          lastMentionedProductId :=
            (personalized.head?.map fun p => p.id) <|> s.profile.lastMentionedProductId },
        uiProducts := s.uiProducts ++ personalized.map toProductCard }
    | none => s
  else s

def replaceFirstSearch : List ClerkAction → ClerkAction → Option (List ClerkAction)
  | [], _ => none
  | a :: rest, sa =>
    match a with
    | .search_products _ _ => some (sa :: rest)
    | _ => (replaceFirstSearch rest sa).map fun r => a :: r

def intentGuard (catalog : List Product) (message : String)
    (intentSignals : IntentSignals) (s : OrchState) : OrchState :=
  if intentSignals.wantsProducts &&
      (intentSignals.category.isSome || !intentSignals.productTypes.isEmpty ||
        !intentSignals.vibes.isEmpty) then
    let intentResolved := filterProductsByIntent catalog intentSignals 4
    if intentResolved.isEmpty then s
    else
      let allowedIds := intentResolved.map fun p => p.id
      let currentlyAligned := s.uiProducts.filter fun card => allowedIds.contains card.id
      if !currentlyAligned.isEmpty then s
      else
        let newCards := intentResolved.map toProductCard
        let actionCategory := intentSignals.category <|> dominantCategory intentResolved
        let actionQuery := buildCatalogQueryFromIntent message intentSignals
        let searchAction : ClerkAction := .search_products actionQuery actionCategory
        let actions :=
          match replaceFirstSearch s.actions searchAction with
          | some acts => acts
          | none => s.actions ++ [searchAction]
        { profile := { s.profile with
            lastShownProductIds := intentResolved.map (fun p => p.id),
            lastMentionedProductId :=
              (intentResolved.head?.map fun p => p.id) <|> s.profile.lastMentionedProductId },
          uiProducts := newCards,
          actions := actions,
          forced := some (buildCardLeadMessage newCards) }
  else s

/-! ### Deterministic short-circuit branches of the chat turn
(routes.ts lines 755-960); each returns the `res.json` envelope literal of
the corresponding `return` site, plus the mutated profile. -/

def navTurn (profile : ShopperProfile) : TurnResult :=
  { outcome := .ok
      { message := "Perfect. Taking you to checkout now.",
        content := "Perfect. Taking you to checkout now.",
        action := some .navigate_checkout, actions := [.navigate_checkout],
        products := [], toolCalls := [],
        data := { productsCount := 0, personalized := true }, role := "assistant" },
    profile := { profile with awaitingCheckoutConfirmation := false } }

def declineTurn (profile : ShopperProfile) : TurnResult :=
  { outcome := .ok
      { message := "No problem. Your cart is ready whenever you want to check out.",
        content := "No problem. Your cart is ready whenever you want to check out.",
        action := none, actions := [],
        products := [], toolCalls := [],
        data := { productsCount := 0, personalized := true }, role := "assistant" },
    profile := { profile with awaitingCheckoutConfirmation := false } }

def addToCartTurn (profile : ShopperProfile) (rp : Product)
    (requestedQuantity : Int) : TurnResult :=
  let assistantText := "Bet, I added " ++ toString requestedQuantity ++ " x " ++
    rp.name ++ " to your cart. Want to proceed to checkout?"
  { outcome := .ok
      { message := assistantText, content := assistantText,
        action := some (.add_to_cart rp.id requestedQuantity),
        actions := [.add_to_cart rp.id requestedQuantity],
        products := [toProductCard rp], toolCalls := [],
        data := { productsCount := 1, personalized := true }, role := "assistant" },
    profile := { profile with
      lastMentionedProductId := some rp.id,
      lastShownProductIds := [rp.id],
      addedProductIds := profile.addedProductIds ++ [rp.id],
      awaitingCheckoutConfirmation := true } }

def discountTurn (profile : ShopperProfile) (rp : Product) (message : String)
    (cartTotal : ℚ) (sfx : String) : TurnResult :=
  let coupon := buildCouponFromReason message cartTotal sfx
  let assistantText :=
    if coupon.discountAmount > 0 then
      "For " ++ rp.name ++ ", your coupon " ++ coupon.code ++ " is live for " ++
        toString coupon.discountAmount ++ "% off."
    else "I can’t apply a discount on " ++ rp.name ++ " with that tone right now."
  { outcome := .ok
      { message := assistantText, content := assistantText,
        action := some (.apply_coupon coupon.code coupon.discountAmount message),
        actions := [.apply_coupon coupon.code coupon.discountAmount message],
        products := [toProductCard rp], toolCalls := [],
        data := { productsCount := 1, personalized := true }, role := "assistant" },
    profile := { profile with
      lastMentionedProductId := some rp.id,
      lastShownProductIds := [rp.id] } }

def colorTurn (profile : ShopperProfile) (rp : Product) (requestedColor : String) :
    TurnResult :=
  let isAvailable := rp.colors.any fun c => colorMatches requestedColor c
  let assistantText :=
    if isAvailable then "Yep, " ++ rp.name ++ " is available in " ++ requestedColor ++ "."
    else "Nope, " ++ rp.name ++ " is not available in " ++ requestedColor ++
      ". Want close alternatives?"
  { outcome := .ok
      { message := assistantText, content := assistantText, action := none, actions := [],
        products := [toProductCard rp], toolCalls := [],
        data := { productsCount := 1, personalized := true }, role := "assistant" },
    profile := { profile with
      lastMentionedProductId := some rp.id,
      lastShownProductIds := [rp.id],
      viewedCategories := profile.viewedCategories ++ [rp.category] } }

def directTurn (profile : ShopperProfile) (dp : Product) (message : String)
    (requestedColor : Option String) : TurnResult :=
  let purchase := purchaseIntentTest message
  let uiProducts := [toProductCard dp]
  let actions : List ClerkAction := if purchase then [.add_to_cart dp.id 1] else []
  let colorText :=
    match requestedColor with
    | some color =>
      if dp.colors.any fun c => colorMatches color c then
        "Yep, " ++ dp.name ++ " comes in " ++ color ++ "."
      else dp.name ++ " is not in " ++ color ++ ", but I can show close matches."
    | none => "Fire pick. I found " ++ dp.name ++ " for you."
  let assistantText :=
    if purchase then
      "Bet, I added " ++ dp.name ++ " to your cart. Want to proceed to checkout?"
    else colorText
  { outcome := .ok
      { message := assistantText, content := assistantText,
        action := actions.head?, actions := actions,
        products := uiProducts, toolCalls := [],
        data := { productsCount := uiProducts.length, personalized := true },
        role := "assistant" },
    profile := { profile with
      lastMentionedProductId := some dp.id,
      lastShownProductIds := [dp.id],
      viewedCategories := profile.viewedCategories ++ [dp.category],
      awaitingCheckoutConfirmation :=
        if purchase then true else profile.awaitingCheckoutConfirmation } }

def categoryIntentTurn (profile : ShopperProfile) (message : String)
    (intentSignals : IntentSignals) (resolved : List Product) : TurnResult :=
  let cards := resolved.map toProductCard
  let actionCategory := intentSignals.category <|> dominantCategory resolved
  let actionQuery := buildCatalogQueryFromIntent message intentSignals
  let assistantText := buildCardLeadMessage cards
  { outcome := .ok
      { message := assistantText, content := assistantText,
        action := some (.search_products actionQuery actionCategory),
        actions := [.search_products actionQuery actionCategory],
        products := cards, toolCalls := [],
        data := { productsCount := cards.length, personalized := true },
        role := "assistant" },
    profile := { profile with
      lastShownProductIds := resolved.map (fun p => p.id),
      lastMentionedProductId :=
        (resolved.head?.map fun p => p.id) <|> profile.lastMentionedProductId,
      viewedCategories := profile.viewedCategories ++ resolved.map (fun p => p.category) } }

/-! ### LLM tool-calling phase and final envelope (routes.ts lines 962-1443)

A thrown `firstPass` or `freeform` call is not caught locally: it propagates
to the endpoint's outer `catch`, which answers with the generic error payload
("AI is currently unavailable."). -/

def llmPhase (catalog : List Product) (message : String) (cartTotal : ℚ)
    (intentSignals : IntentSignals) (profile : ShopperProfile) (orc : Oracles) :
    TurnResult :=
  match orc.firstPass with
  | .error _ => { outcome := .serverError "AI is currently unavailable.", profile := profile }
  | .ok toolCalls =>
    let s0 : OrchState :=
      { profile := profile, uiProducts := [], actions := [], forced := none }
    let s1 := toolCalls.foldl (fun s call => dispatchTool catalog message cartTotal orc s call) s0
    let s2 := safetyNet catalog message cartTotal orc s1
    let s3 := backfill catalog s2
    let s4 := intentGuard catalog message intentSignals s3
    let textOutcome : Except Unit String :=
      match s4.forced with
      | some t => .ok t
      | none =>
        if !s4.uiProducts.isEmpty then .ok (buildCardLeadMessage s4.uiProducts)
        else match orc.freeform with
          | .error e => .error e
          | .ok content => .ok (content.getD "I pulled a few solid options for you.")
    match textOutcome with
    | .error _ => { outcome := .serverError "AI is currently unavailable.", profile := s4.profile }
    | .ok assistantText =>
      { outcome := .ok
          { message := assistantText, content := assistantText,
            action := s4.actions.head?, actions := s4.actions,
            products := s4.uiProducts, toolCalls := toolCalls,
            data := { productsCount := s4.uiProducts.length,
                      personalized := !s4.profile.viewedCategories.isEmpty },
            role := "assistant" },
        profile := s4.profile }

/-- deterministicBranch : the ordered chain of deterministic short-circuit
paths (add-to-cart, discount-on-current-item, color check, direct mention,
category/type/vibe intent; routes.ts lines 785-960).  `some` is an early
`return res.json(...)`; `none` falls through to the LLM tool-calling pass. -/
def deterministicBranch (productCatalog : List Product) (message : String)
    (ctx : Context) (profile : ShopperProfile) (intentSignals : IntentSignals)
    (cartTotal : ℚ) (sfx : String) : Option TurnResult :=
  let directProduct := findDirectProductMention message productCatalog
  let resolvedProduct := resolveProduct productCatalog message profile ctx.lastSuggestedProductId
  let requestedColor := extractRequestedColor message
  let requestedQuantity := extractRequestedQuantity message
  let b1 : Option TurnResult :=
    match resolvedProduct with
    | some rp =>
      if wantsAddToCart message then some (addToCartTurn profile rp requestedQuantity)
      else none
    | none => none
  let b2 : Option TurnResult :=
    match resolvedProduct with
    | some rp =>
      if wantsDiscount message && directProduct.isNone &&
          (referencesCurrentItem message || !explicitBrowseIntent message) then
        some (discountTurn profile rp message cartTotal sfx)
      else none
    | none => none
  let b3 : Option TurnResult :=
    match requestedColor, resolvedProduct with
    | some color, some rp => some (colorTurn profile rp color)
    | _, _ => none
  let b4 : Option TurnResult :=
    match directProduct with
    | some dp => some (directTurn profile dp message requestedColor)
    | none => none
  let b5 : Option TurnResult :=
    if intentSignals.wantsProducts &&
        (intentSignals.category.isSome || !intentSignals.productTypes.isEmpty ||
          !intentSignals.vibes.isEmpty) then
      let resolved := filterProductsByIntent productCatalog intentSignals 4
      if resolved.isEmpty then none
      else some (categoryIntentTurn profile message intentSignals resolved)
    else none
  b1 <|> b2 <|> b3 <|> b4 <|> b5

/-- chatTurn : one POST of the chat endpoint (routes.ts lines 704-1444),
from request validation to the response envelope, with the store read/write
made explicit as the profile-in / profile-out pair.  The missing-API-key
guard (a 500 before any processing) is outside the modelled turn. -/
def chatTurn (productCatalog : List Product) (message : String) (ctx : Context)
    (p0 : ShopperProfile) (orc : Oracles) : TurnResult :=
  if (strTrim message).data.isEmpty then
    { outcome := .badRequest "A non-empty message is required.", profile := p0 }
  else
    let profile := applyContext p0 ctx message
    let intentSignals := detectIntentSignals message productCatalog
    let cartTotal := ctx.cartTotal.getD 0
    if profile.awaitingCheckoutConfirmation && isAffirmativeResponse message then
      navTurn profile
    else if profile.awaitingCheckoutConfirmation && isNegativeResponse message then
      declineTurn profile
    else
      match deterministicBranch productCatalog message ctx profile intentSignals
          cartTotal orc.couponSuffix with
      | some result => result
      | none => llmPhase productCatalog message cartTotal intentSignals profile orc

/-- runTurns : iterate chat turns against the same in-memory profile (the
shared `shopperProfiles` map entry of one session). -/
structure TurnInput where
  catalog : List Product
  message : String
  ctx : Context
  orc : Oracles

def runTurns (turns : List TurnInput) (p : ShopperProfile) : ShopperProfile :=
  turns.foldl (fun prof t => (chatTurn t.catalog t.message t.ctx prof t.orc).profile) p

/-! ### Sample data for concrete witnesses -/

def sampleLoafer : Product :=
  { id := 5, name := "Leather Loafers", description := "Handmade leather loafers",
    price := 120, rating := 5, category := "Footwear", colors := ["brown", "black"],
    stock := 12, image := "img5" }

def sampleProfile5 : ShopperProfile :=
  { emptyProfile with lastMentionedProductId := some 5 }

/-- stubOracles : a fully deterministic oracle bundle (no tool calls, failing
semantic match, empty free-form reply). -/
def stubOracles : Oracles :=
  { firstPass := .ok [], aiSelect := fun _ _ => .error (), freeform := .ok none,
    couponSuffix := "zz2a" }

/-! ### Generic helper lemmas -/

theorem data_append (a b : String) : (a ++ b).data = a.data ++ b.data := rfl

theorem startsWithCl_append_self (p rest : List Char) :
    startsWithCl p (p ++ rest) = true := by
  induction p with
  | nil => rfl
  | cons c cs ih => simp [startsWithCl, ih]

theorem startsWithCl_self (p : List Char) : startsWithCl p p = true := by
  simpa using startsWithCl_append_self p []

theorem containsCl_self (x : List Char) : containsCl x x = true := by
  cases x with
  | nil => rfl
  | cons c cs => simp [containsCl, startsWithCl_self]

theorem strStarts_append (p rest : String) : strStarts (p ++ rest) p = true := by
  simp [strStarts, data_append, startsWithCl_append_self]

/-! ### C1 : coupon policy -/

/-- C1: buildCouponFromReason implements the policy order rude / birthday /
polite / default with discounts 0 / 20 / 7 / 5, code prefixes NODEAL / BDAY /
KIND / SAVE, where any positive discount is capped by the cart-total ceiling
(20 if cartTotal >= 300, 15 if >= 150, else 10; the cap only ever binds in the
birthday case, and never applies to the rude 0-discount case), and
buildCouponFromReason "you are stupid" 500 yields discount 0 with a code
starting "NODEAL-0-". -/
theorem coupon_policy_c1 (r : String) (t : ℚ) (sfx : String) :
    ((buildCouponFromReason r t sfx).discountAmount =
      (if isRudeReason r then 0
       else if isBdayReason r then
         min 20 (if t ≥ 300 then 20 else if t ≥ 150 then 15 else 10)
       else if isFriendlyReason r then 7 else 5)) ∧
    (strStarts (buildCouponFromReason r t sfx).code
      (if isRudeReason r then "NODEAL" else if isBdayReason r then "BDAY"
       else if isFriendlyReason r then "KIND" else "SAVE") = true) ∧
    (buildCouponFromReason "you are stupid" 500 sfx).discountAmount = 0 ∧
    strStarts (buildCouponFromReason "you are stupid" 500 sfx).code "NODEAL-0-" = true := by
  refine ⟨?_, ?_, ?_, ?_⟩
  · unfold buildCouponFromReason maxDiscountFromBottomPrice
    by_cases hr : isRudeReason r <;> by_cases hb : isBdayReason r <;>
      by_cases hf : isFriendlyReason r <;>
      simp [hr, hb, hf] <;> split_ifs <;> norm_num
  · unfold buildCouponFromReason
    by_cases hr : isRudeReason r <;> by_cases hb : isBdayReason r <;>
      by_cases hf : isFriendlyReason r <;>
      simp [hr, hb, hf, strStarts, data_append, List.append_assoc,
        startsWithCl_append_self, startsWithCl]
  · rfl
  · have h : (buildCouponFromReason "you are stupid" 500 sfx).code =
        "NODEAL-0-" ++ upperStr sfx := rfl
    rw [h]
    exact strStarts_append _ _

/-! ### C6 : colorMatches -/

/-- ciSubstring pat hay : the claim's relation "pat is a case-insensitive
substring of hay" on the raw strings (formalizing the claim's wording, for
comparison with what `colorMatches` actually computes). -/
def ciSubstring (pat hay : String) : Bool :=
  containsCl (lowerStr hay).data (lowerStr pat).data

/-- C6 counterexample: "navy-blue" and "navy blue" are disjoint strings
(neither is a case-insensitive substring of the other), yet colorMatches
returns true, because colorMatches compares normalized forms (punctuation is
collapsed to spaces) rather than case-folded raw strings. -/
theorem color_matches_c6_counterexample :
    colorMatches "navy-blue" "navy blue" = true ∧
    ciSubstring "navy-blue" "navy blue" = false ∧
    ciSubstring "navy blue" "navy-blue" = false := by
  decide

/-- C6 (amended): colorMatches returns true exactly when both normalized forms
(lowercased, non-alphanumerics collapsed to single spaces, trimmed) are
nonempty and one normalized form is a substring of the other; the raw
case-insensitive-substring relation of the original claim is neither necessary
nor sufficient. -/
theorem color_matches_c6 (r a : String) :
    colorMatches r a =
      (!(normalizeText r).data.isEmpty && !(normalizeText a).data.isEmpty &&
        (strContains (normalizeText a) (normalizeText r) ||
         strContains (normalizeText r) (normalizeText a))) := by
  unfold colorMatches
  by_cases h1 : (normalizeText r).data.isEmpty <;>
    by_cases h2 : (normalizeText a).data.isEmpty <;>
    simp [h1, h2]
  by_cases h3 : normalizeText r = normalizeText a
  · simp [h3, strContains, containsCl_self]
  · simp [h3]

/-! ### C7 : quantity extraction -/

/-- C7: extractRequestedQuantity is total with range [1, 10]; a 1-2 digit
number (optionally followed by a unit suffix) is clamped into [1, 10], and a
message without such a number yields 1: "add 3x to cart" gives 3,
"add to cart" gives 1, "add 99 items" clamps to 10. -/
theorem quantity_extraction_c7 :
    (∀ message : String, 1 ≤ extractRequestedQuantity message ∧
      extractRequestedQuantity message ≤ 10) ∧
    extractRequestedQuantity "add 3x to cart" = 3 ∧
    extractRequestedQuantity "add to cart" = 1 ∧
    extractRequestedQuantity "add 99 items" = 10 := by
  refine ⟨fun message => ?_, by decide, by decide, by decide⟩
  unfold extractRequestedQuantity
  cases findQtyAux none message.data with
  | none => exact ⟨le_refl 1, by norm_num⟩
  | some qty =>
    dsimp only
    omega

/-! ### C4 : intent filtering -/

/-- C4 counterexample: the category filter of filterProductsByIntent is not
progressive narrowing — with a nonempty catalog and an intent whose category
matches no catalog product, the candidate set is narrowed to zero products. -/
theorem filter_intent_c4_counterexample :
    [sampleLoafer] ≠ [] ∧
    filterProductsByIntent [sampleLoafer]
      { wantsProducts := true, category := some "Clothing", productTypes := [],
        vibes := [] } 4 = [] := by
  decide

theorem insertBy_length (f : α → α → Bool) (a : α) (l : List α) :
    (insertBy f a l).length = l.length + 1 := by
  induction l with
  | nil => rfl
  | cons b bs ih => by_cases h : f a b <;> simp [insertBy, h, ih]

theorem jsSortBy_length (f : α → α → Bool) (l : List α) :
    (jsSortBy f l).length = l.length := by
  suffices h : ∀ (l acc : List α),
      (l.foldl (fun acc a => insertBy f a acc) acc).length = acc.length + l.length by
    simpa using h l []
  intro l
  induction l with
  | nil => simp
  | cons a as ih =>
    intro acc
    simp [List.foldl_cons, ih, insertBy_length]
    omega

theorem jsSortBy_ne_nil (f : α → α → Bool) (l : List α) (hl : l ≠ []) :
    jsSortBy f l ≠ [] := by
  intro h
  have hlen := jsSortBy_length f l
  rw [h] at hlen
  exact hl (List.length_eq_zero.mp hlen.symm)

theorem jsTake_ne_nil (l : List α) (limit : Int) (hlim : 1 ≤ limit) (hl : l ≠ []) :
    jsTake l limit ≠ [] := by
  unfold jsTake
  have : ¬ limit < 0 := by omega
  simp only [this, if_false]
  cases l with
  | nil => exact absurd rfl hl
  | cons a as =>
    have : 1 ≤ limit.toNat := by omega
    cases h : limit.toNat with
    | zero => omega
    | succ n => simp [List.take]

/-- C4 (amended): the product-type and vibe filters are progressive narrowing
(a narrower result replaces the current set only when nonempty), but the
category filter is unconditional; hence the result is nonempty for a nonempty
catalog and positive limit provided the intent carries no category or its
category is the category of some catalog product (which the intent-detection
and category-normalization call sites guarantee). -/
theorem stage_ne_nil {α} (c : Bool) (l next : List α) (hl : l ≠ []) :
    (if c = true then l else if next.isEmpty = true then l else next) ≠ [] := by
  split_ifs with h1 h2
  · exact hl
  · exact hl
  · simpa using h2

theorem filter_intent_c4 (catalog : List Product) (intent : IntentSignals)
    (limit : Int) (hlim : 1 ≤ limit)
    (hcat : match intent.category with
            | none => catalog ≠ []
            | some c => ∃ p ∈ catalog, p.category = c) :
    filterProductsByIntent catalog intent limit ≠ [] := by
  simp only [filterProductsByIntent]
  apply jsTake_ne_nil _ _ hlim
  apply jsSortBy_ne_nil
  have step1 : (match intent.category with
      | some c => catalog.filter fun p => p.category == c
      | none => catalog) ≠ [] := by
    cases h : intent.category with
    | none => rw [h] at hcat; exact hcat
    | some c =>
      rw [h] at hcat
      obtain ⟨p, hp, hpc⟩ := hcat
      have hmem : p ∈ catalog.filter fun q => q.category == c := by
        simp [List.mem_filter, hp, hpc]
      exact List.ne_nil_of_mem hmem
  exact stage_ne_nil _ _ _ (stage_ne_nil _ _ _ step1)

/-! ### C5 : failure semantics of the delegated calls -/

/-- deterministicBranch_shape: every early-returned deterministic result is one
of the five branch constructors (applied to the merged profile). -/
theorem deterministicBranch_shape (productCatalog : List Product) (message : String)
    (ctx : Context) (profile : ShopperProfile) (intentSignals : IntentSignals)
    (cartTotal : ℚ) (sfx : String) (x : TurnResult)
    (h : deterministicBranch productCatalog message ctx profile intentSignals
      cartTotal sfx = some x) :
    (∃ rp, x = addToCartTurn profile rp (extractRequestedQuantity message)) ∨
    (∃ rp, x = discountTurn profile rp message cartTotal sfx) ∨
    (∃ rp color, x = colorTurn profile rp color) ∨
    (∃ dp, x = directTurn profile dp message (extractRequestedColor message)) ∨
    (∃ resolved, x = categoryIntentTurn profile message intentSignals resolved) := by
  simp only [deterministicBranch] at h
  rcases h1 : resolveProduct productCatalog message profile ctx.lastSuggestedProductId
      with _ | rp <;> rw [h1] at h <;>
    rcases h2 : findDirectProductMention message productCatalog with _ | dp <;>
      rw [h2] at h <;>
    rcases h3 : extractRequestedColor message with _ | color <;> rw [h3] at h <;>
    simp only [Option.some_orElse, Option.none_orElse] at h <;>
    (try split_ifs at h) <;>
    simp only [Option.some_orElse, Option.none_orElse, Option.some.injEq] at h <;>
    first
      | exact absurd h (by simp)
      | (subst h;
         first
           | exact Or.inl ⟨_, rfl⟩
           | exact Or.inr (Or.inl ⟨_, rfl⟩)
           | exact Or.inr (Or.inr (Or.inl ⟨_, _, rfl⟩))
           | exact Or.inr (Or.inr (Or.inr (Or.inl ⟨_, rfl⟩)))
           | exact Or.inr (Or.inr (Or.inr (Or.inr ⟨_, rfl⟩))))


theorem llmPhase_ok_oracles (catalog : List Product) (message : String)
    (cartTotal : ℚ) (intentSignals : IntentSignals) (profile : ShopperProfile)
    (tcs : List ToolCall) (aiSel : String → AiOptions → Except Unit AiRaw)
    (content : Option String) (sfx : String) :
    (llmPhase catalog message cartTotal intentSignals profile
      { firstPass := .ok tcs, aiSelect := aiSel, freeform := .ok content,
        couponSuffix := sfx }).outcome.isServerError = false := by
  unfold llmPhase
  dsimp only
  split
  case _ e heq =>
    exfalso
    split at heq <;> ((try split_ifs at heq); all_goals simp_all)
  case _ t heq => rfl

theorem semantic_errors_degrade_c5 (catalog : List Product) (message : String)
    (ctx : Context) (p0 : ShopperProfile) (tcs : List ToolCall)
    (content : Option String) (sfx : String) :
    (chatTurn catalog message ctx p0
      { firstPass := .ok tcs, aiSelect := fun _ _ => .error (),
        freeform := .ok content, couponSuffix := sfx }).outcome.isServerError = false := by
  unfold chatTurn
  split
  · rfl
  · dsimp only
    split
    · rfl
    · split
      · rfl
      · split
        case _ result heq =>
          rcases deterministicBranch_shape _ _ _ _ _ _ _ _ heq with
            ⟨rp, rfl⟩ | ⟨rp, rfl⟩ | ⟨rp, c, rfl⟩ | ⟨dp, rfl⟩ | ⟨res, rfl⟩ <;> rfl
        case _ heq => exact llmPhase_ok_oracles _ _ _ _ _ _ _ _ _

/-- C5 counterexample: a thrown final free-form generation call has no local
catch — it propagates to the endpoint's outer catch, which ends the turn with
the generic error payload rather than a normal response envelope ("hello
there" triggers no deterministic branch, the model returns no tool calls, and
the thrown safety-net semantic match is ignored). -/
theorem freeform_error_c5_counterexample :
    (chatTurn [] "hello there" emptyContext emptyProfile
      { firstPass := .ok [], aiSelect := fun _ _ => .error (),
        freeform := .error (), couponSuffix := "zz2a" }).outcome =
      .serverError "AI is currently unavailable." := by
  decide

/-! ### C2 / C3 : deterministic add-to-cart and checkout confirmation -/

theorem applyContext_awaiting (p0 : ShopperProfile) (ctx : Context) (m : String) :
    (applyContext p0 ctx m).awaitingCheckoutConfirmation =
      p0.awaitingCheckoutConfirmation := by
  unfold applyContext
  dsimp only
  repeat' split
  all_goals rfl

/-- C2: a chat turn whose message matches an explicit add-to-cart regex, not
answered by the checkout-confirmation branch, with a resolved product P
(direct mention, else profile anchor, else context-suggested id) returns
exactly the add_to_cart action for P with the extracted quantity and a single
card for P, and leaves the profile with lastMentionedProductId = P.id, P.id
appended to addedProductIds, lastShownProductIds = [P.id] and
awaitingCheckoutConfirmation = true. -/
theorem add_to_cart_c2 (catalog : List Product) (message : String) (ctx : Context)
    (p0 : ShopperProfile) (orc : Oracles) (P : Product)
    (hmsg : (strTrim message).data.isEmpty = false)
    (hconfirm : p0.awaitingCheckoutConfirmation = false ∨
      (isAffirmativeResponse message = false ∧ isNegativeResponse message = false))
    (hadd : wantsAddToCart message = true)
    (hres : resolveProduct catalog message (applyContext p0 ctx message)
      ctx.lastSuggestedProductId = some P) :
    ∃ env, (chatTurn catalog message ctx p0 orc).outcome = .ok env ∧
      env.actions = [.add_to_cart P.id (extractRequestedQuantity message)] ∧
      env.action = some (.add_to_cart P.id (extractRequestedQuantity message)) ∧
      env.products = [toProductCard P] ∧
      (toProductCard P).id = P.id ∧
      (chatTurn catalog message ctx p0 orc).profile =
        { applyContext p0 ctx message with
          lastMentionedProductId := some P.id,
          lastShownProductIds := [P.id],
          addedProductIds := (applyContext p0 ctx message).addedProductIds ++ [P.id],
          awaitingCheckoutConfirmation := true } := by
  have hA : ((applyContext p0 ctx message).awaitingCheckoutConfirmation &&
      isAffirmativeResponse message) = false := by
    rcases hconfirm with h | ⟨ha, _⟩
    · simp [applyContext_awaiting, h]
    · simp [ha]
  have hN : ((applyContext p0 ctx message).awaitingCheckoutConfirmation &&
      isNegativeResponse message) = false := by
    rcases hconfirm with h | ⟨_, hn⟩
    · simp [applyContext_awaiting, h]
    · simp [hn]
  have hdb : deterministicBranch catalog message ctx (applyContext p0 ctx message)
      (detectIntentSignals message catalog) (ctx.cartTotal.getD 0) orc.couponSuffix =
      some (addToCartTurn (applyContext p0 ctx message) P
        (extractRequestedQuantity message)) := by
    simp only [deterministicBranch]
    rw [hres]
    simp [hadd]
  have hturn : chatTurn catalog message ctx p0 orc =
      addToCartTurn (applyContext p0 ctx message) P (extractRequestedQuantity message) := by
    unfold chatTurn
    simp only [hmsg, Bool.false_eq_true, if_false]
    simp only [hA, hN, Bool.false_eq_true, if_false]
    rw [hdb]
  rw [hturn]
  exact ⟨_, rfl, rfl, rfl, rfl, rfl, rfl⟩

/-- C3: with awaitingCheckoutConfirmation set, an affirmative message yields
the navigate_checkout action, zero product cards, the reply "Perfect. Taking
you to checkout now." and clears the flag; a negative (and not affirmative)
message clears the flag and emits no action. -/
theorem checkout_confirmation_c3 (catalog : List Product) (message : String)
    (ctx : Context) (p0 : ShopperProfile) (orc : Oracles)
    (hmsg : (strTrim message).data.isEmpty = false)
    (hwait : p0.awaitingCheckoutConfirmation = true) :
    (isAffirmativeResponse message = true →
      ∃ env, (chatTurn catalog message ctx p0 orc).outcome = .ok env ∧
        env.action = some .navigate_checkout ∧
        env.actions = [.navigate_checkout] ∧
        env.products = [] ∧
        env.message = "Perfect. Taking you to checkout now." ∧
        (chatTurn catalog message ctx p0 orc).profile.awaitingCheckoutConfirmation =
          false) ∧
    (isAffirmativeResponse message = false → isNegativeResponse message = true →
      ∃ env, (chatTurn catalog message ctx p0 orc).outcome = .ok env ∧
        env.action = none ∧ env.actions = [] ∧ env.products = [] ∧
        (chatTurn catalog message ctx p0 orc).profile.awaitingCheckoutConfirmation =
          false) := by
  constructor
  · intro ha
    have hturn : chatTurn catalog message ctx p0 orc =
        navTurn (applyContext p0 ctx message) := by
      unfold chatTurn
      simp only [hmsg, Bool.false_eq_true, if_false]
      simp only [applyContext_awaiting, hwait, ha, Bool.and_self, if_true]
    rw [hturn]
    exact ⟨_, rfl, rfl, rfl, rfl, rfl, rfl⟩
  · intro ha hn
    have hturn : chatTurn catalog message ctx p0 orc =
        declineTurn (applyContext p0 ctx message) := by
      unfold chatTurn
      simp only [hmsg, Bool.false_eq_true, if_false]
      simp only [applyContext_awaiting, hwait, ha, hn, Bool.and_self, Bool.and_true,
        Bool.and_false, Bool.true_and, Bool.false_eq_true, if_false, if_true]
    rw [hturn]
    exact ⟨_, rfl, rfl, rfl, rfl, rfl⟩

theorem checkout_confirmation_c3_witness :
    (∃ env, (chatTurn [] "yes" emptyContext
        { emptyProfile with awaitingCheckoutConfirmation := true } stubOracles).outcome =
          .ok env ∧
      env.action = some .navigate_checkout ∧
      env.actions = [.navigate_checkout] ∧
      env.products = [] ∧
      env.message = "Perfect. Taking you to checkout now." ∧
      (chatTurn [] "yes" emptyContext
        { emptyProfile with awaitingCheckoutConfirmation := true }
        stubOracles).profile.awaitingCheckoutConfirmation = false) ∧
    (∃ env, (chatTurn [] "no" emptyContext
        { emptyProfile with awaitingCheckoutConfirmation := true } stubOracles).outcome =
          .ok env ∧
      env.action = none ∧ env.actions = [] ∧ env.products = [] ∧
      (chatTurn [] "no" emptyContext
        { emptyProfile with awaitingCheckoutConfirmation := true }
        stubOracles).profile.awaitingCheckoutConfirmation = false) :=
  ⟨(checkout_confirmation_c3 [] "yes" emptyContext
      { emptyProfile with awaitingCheckoutConfirmation := true } stubOracles
      (by decide) (by decide)).1 (by decide),
   (checkout_confirmation_c3 [] "no" emptyContext
      { emptyProfile with awaitingCheckoutConfirmation := true } stubOracles
      (by decide) (by decide)).2 (by decide) (by decide)⟩

theorem add_to_cart_c2_witness :
    (strTrim "add this to my cart").data.isEmpty = false ∧
    wantsAddToCart "add this to my cart" = true ∧
    resolveProduct [sampleLoafer] "add this to my cart"
      (applyContext sampleProfile5 emptyContext "add this to my cart")
      emptyContext.lastSuggestedProductId = some sampleLoafer ∧
    (∃ env, (chatTurn [sampleLoafer] "add this to my cart" emptyContext sampleProfile5
        stubOracles).outcome = .ok env ∧
      env.actions = [.add_to_cart sampleLoafer.id
        (extractRequestedQuantity "add this to my cart")] ∧
      env.action = some (.add_to_cart sampleLoafer.id
        (extractRequestedQuantity "add this to my cart")) ∧
      env.products = [toProductCard sampleLoafer] ∧
      (toProductCard sampleLoafer).id = sampleLoafer.id ∧
      (chatTurn [sampleLoafer] "add this to my cart" emptyContext sampleProfile5
        stubOracles).profile =
        { applyContext sampleProfile5 emptyContext "add this to my cart" with
          lastMentionedProductId := some sampleLoafer.id,
          lastShownProductIds := [sampleLoafer.id],
          addedProductIds := (applyContext sampleProfile5 emptyContext
            "add this to my cart").addedProductIds ++ [sampleLoafer.id],
          awaitingCheckoutConfirmation := true }) :=
  ⟨by decide, by decide, by decide,
    add_to_cart_c2 [sampleLoafer] "add this to my cart" emptyContext sampleProfile5
      stubOracles sampleLoafer (by decide) (Or.inl (by decide)) (by decide) (by decide)⟩

theorem filter_intent_c4_witness :
    (1 : Int) ≤ 4 ∧ (∃ p ∈ [sampleLoafer], p.category = "Footwear") ∧
    filterProductsByIntent [sampleLoafer]
      { wantsProducts := true, category := some "Footwear", productTypes := [],
        vibes := [] } 4 ≠ [] :=
  ⟨by norm_num, by decide,
    filter_intent_c4 [sampleLoafer]
      { wantsProducts := true, category := some "Footwear", productTypes := [],
        vibes := [] } 4 (by norm_num) (by decide)⟩

/-! ### C10 : determinism of the keyword-score fallback -/

/-- C10: two calls of the deterministic keyword-score fallback with identical
catalog, query and options (including the profile inside the options) return
identical ordered product lists: the embedded scoring and sorting path is a
pure function of those inputs, with no randomness source. -/
theorem semantic_fallback_deterministic_c10 (products products' : List Product)
    (query query' : String) (options options' : SemanticOptions)
    (h1 : products = products') (h2 : query = query') (h3 : options = options') :
    semanticSearchProducts products query options =
      semanticSearchProducts products' query' options' := by
  subst h1; subst h2; subst h3; rfl

theorem semantic_fallback_deterministic_c10_witness :
    [sampleLoafer] = [sampleLoafer] ∧ "loafers" = "loafers" ∧
    semanticSearchProducts [sampleLoafer] "loafers"
        { category := none, maxPrice := none, minRating := none, limit := none,
          profile := none } =
      semanticSearchProducts [sampleLoafer] "loafers"
        { category := none, maxPrice := none, minRating := none, limit := none,
          profile := none } :=
  ⟨rfl, rfl, semantic_fallback_deterministic_c10 _ _ _ _ _ _ rfl rfl rfl⟩

/-! ### C8 : response envelope invariant -/

theorem llmPhase_inv (catalog : List Product) (message : String) (cartTotal : ℚ)
    (intentSignals : IntentSignals) (profile : ShopperProfile) (orc : Oracles)
    (env : Envelope)
    (h : (llmPhase catalog message cartTotal intentSignals profile orc).outcome =
      .ok env) :
    env.content = env.message ∧ env.action = env.actions.head? ∧
      env.data.productsCount = env.products.length := by
  unfold llmPhase at h
  split at h
  · simp at h
  · dsimp only at h
    split at h
    · simp at h
    · injection h with h'
      subst h'
      exact ⟨rfl, rfl, rfl⟩

/-- C8: every successful (HTTP 200) response envelope of the chat endpoint has
content equal to message, action equal to the head of the actions array (null
when empty), and data.productsCount equal to the length of the products
array. -/
theorem envelope_invariant_c8 (catalog : List Product) (message : String)
    (ctx : Context) (p0 : ShopperProfile) (orc : Oracles) (env : Envelope)
    (h : (chatTurn catalog message ctx p0 orc).outcome = .ok env) :
    env.content = env.message ∧ env.action = env.actions.head? ∧
      env.data.productsCount = env.products.length := by
  unfold chatTurn at h
  split at h
  · simp at h
  · dsimp only at h
    split at h
    · revert h
      simp only [navTurn]
      intro h
      injection h with h'
      subst h'
      exact ⟨rfl, rfl, rfl⟩
    · split at h
      · revert h
        simp only [declineTurn]
        intro h
        injection h with h'
        subst h'
        exact ⟨rfl, rfl, rfl⟩
      · split at h
        case _ result heq =>
          rcases deterministicBranch_shape _ _ _ _ _ _ _ _ heq with
            ⟨rp, rfl⟩ | ⟨rp, rfl⟩ | ⟨rp, c, rfl⟩ | ⟨dp, rfl⟩ | ⟨res, rfl⟩ <;>
            (revert h
             simp only [addToCartTurn, discountTurn, colorTurn, directTurn,
               categoryIntentTurn]
             intro h
             injection h with h'
             subst h'
             exact ⟨rfl, rfl, rfl⟩)
        case _ heq => exact llmPhase_inv _ _ _ _ _ _ _ h

theorem envelope_invariant_c8_witness :
    ((chatTurn [] "yes" emptyContext
        { emptyProfile with awaitingCheckoutConfirmation := true } stubOracles).outcome =
      .ok { message := "Perfect. Taking you to checkout now.",
            content := "Perfect. Taking you to checkout now.",
            action := some .navigate_checkout, actions := [.navigate_checkout],
            products := [], toolCalls := [],
            data := { productsCount := 0, personalized := true },
            role := "assistant" }) ∧
    ("Perfect. Taking you to checkout now." = "Perfect. Taking you to checkout now." ∧
      (some ClerkAction.navigate_checkout : Option ClerkAction) =
        ([ClerkAction.navigate_checkout] : List ClerkAction).head? ∧
      (0 : Nat) = ([] : List ProductCardData).length) :=
  ⟨by decide,
    envelope_invariant_c8 [] "yes" emptyContext
      { emptyProfile with awaitingCheckoutConfirmation := true } stubOracles
      { message := "Perfect. Taking you to checkout now.",
        content := "Perfect. Taking you to checkout now.",
        action := some .navigate_checkout, actions := [.navigate_checkout],
        products := [], toolCalls := [],
        data := { productsCount := 0, personalized := true }, role := "assistant" }
      (by decide)⟩

/-! ### C9 : bounded deduplicated recently-viewed ids -/

theorem pushUnique_eq_drop (list values : List Int) :
    pushUnique list values =
      (pushUniqueAll list values).drop ((pushUniqueAll list values).length - 24) := by
  unfold pushUnique
  dsimp only
  split_ifs with h
  · rfl
  · have h0 : (pushUniqueAll list values).length - 24 = 0 := by omega
    rw [h0, List.drop_zero]

theorem pushUniqueAll_nodup (values list : List Int) (h : list.Nodup) :
    (pushUniqueAll list values).Nodup := by
  induction values generalizing list with
  | nil => exact h
  | cons v vs ih =>
    show (pushUniqueAll (if list.contains v then list else list ++ [v]) vs).Nodup
    apply ih
    split_ifs with hc
    · exact h
    · have hv : v ∉ list := by simpa using hc
      simp [List.nodup_append, h, hv]

theorem pushUnique_nodup (list values : List Int) (h : list.Nodup) :
    (pushUnique list values).Nodup := by
  unfold pushUnique
  dsimp only
  split_ifs with hl
  · exact List.Nodup.sublist (List.drop_sublist _ _) (pushUniqueAll_nodup values list h)
  · exact pushUniqueAll_nodup values list h

theorem pushUnique_length_le (list values : List Int) :
    (pushUnique list values).length ≤ 24 := by
  unfold pushUnique
  dsimp only
  split_ifs with h
  · rw [List.length_drop]
    omega
  · omega

theorem applyContext_rv (p0 : ShopperProfile) (ctx : Context) (m : String) :
    (applyContext p0 ctx m).recentlyViewedProductIds =
      (match ctx.recentlyViewedProductIds with
       | some ids => pushUnique p0.recentlyViewedProductIds ids
       | none => p0.recentlyViewedProductIds) := by
  unfold applyContext
  dsimp only
  repeat' split
  all_goals rfl

theorem dispatchTool_rv (catalog : List Product) (message : String) (cartTotal : ℚ)
    (orc : Oracles) (s : OrchState) (call : ToolCall) :
    (dispatchTool catalog message cartTotal orc s call).profile.recentlyViewedProductIds =
      s.profile.recentlyViewedProductIds := by
  unfold dispatchTool
  dsimp only
  repeat' split
  all_goals rfl

theorem dispatchFold_rv (catalog : List Product) (message : String) (cartTotal : ℚ)
    (orc : Oracles) (calls : List ToolCall) (s : OrchState) :
    ((calls.foldl (fun s call => dispatchTool catalog message cartTotal orc s call)
      s).profile.recentlyViewedProductIds) = s.profile.recentlyViewedProductIds := by
  induction calls generalizing s with
  | nil => rfl
  | cons c cs ih => rw [List.foldl_cons, ih, dispatchTool_rv]

theorem safetyNet_rv (catalog : List Product) (message : String) (cartTotal : ℚ)
    (orc : Oracles) (s : OrchState) :
    (safetyNet catalog message cartTotal orc s).profile.recentlyViewedProductIds =
      s.profile.recentlyViewedProductIds := by
  unfold safetyNet
  dsimp only
  repeat' split
  all_goals rfl

theorem backfill_rv (catalog : List Product) (s : OrchState) :
    (backfill catalog s).profile.recentlyViewedProductIds =
      s.profile.recentlyViewedProductIds := by
  unfold backfill
  dsimp only
  repeat' split
  all_goals rfl

theorem intentGuard_rv (catalog : List Product) (message : String)
    (intentSignals : IntentSignals) (s : OrchState) :
    (intentGuard catalog message intentSignals s).profile.recentlyViewedProductIds =
      s.profile.recentlyViewedProductIds := by
  unfold intentGuard
  dsimp only
  repeat' split
  all_goals rfl

theorem llmPhase_rv (catalog : List Product) (message : String) (cartTotal : ℚ)
    (intentSignals : IntentSignals) (profile : ShopperProfile) (orc : Oracles) :
    (llmPhase catalog message cartTotal intentSignals profile
      orc).profile.recentlyViewedProductIds = profile.recentlyViewedProductIds := by
  unfold llmPhase
  split
  · rfl
  · dsimp only
    split
    · rw [intentGuard_rv, backfill_rv, safetyNet_rv, dispatchFold_rv]
    · rw [intentGuard_rv, backfill_rv, safetyNet_rv, dispatchFold_rv]

theorem chatTurn_rv (catalog : List Product) (message : String) (ctx : Context)
    (p0 : ShopperProfile) (orc : Oracles) :
    (chatTurn catalog message ctx p0 orc).profile.recentlyViewedProductIds =
      (if (strTrim message).data.isEmpty then p0.recentlyViewedProductIds
       else (applyContext p0 ctx message).recentlyViewedProductIds) := by
  unfold chatTurn
  split
  case _ h => simp [h]
  case _ h =>
    dsimp only
    split
    · rfl
    · split
      · rfl
      · split
        case _ result heq =>
          rcases deterministicBranch_shape _ _ _ _ _ _ _ _ heq with
            ⟨rp, rfl⟩ | ⟨rp, rfl⟩ | ⟨rp, c, rfl⟩ | ⟨dp, rfl⟩ | ⟨res, rfl⟩ <;> rfl
        case _ heq => exact llmPhase_rv _ _ _ _ _ _

theorem chatTurn_rv_inv (catalog : List Product) (message : String) (ctx : Context)
    (p0 : ShopperProfile) (orc : Oracles)
    (h1 : p0.recentlyViewedProductIds.Nodup)
    (h2 : p0.recentlyViewedProductIds.length ≤ 24) :
    (chatTurn catalog message ctx p0 orc).profile.recentlyViewedProductIds.Nodup ∧
    (chatTurn catalog message ctx p0 orc).profile.recentlyViewedProductIds.length ≤ 24 := by
  rw [chatTurn_rv]
  split_ifs with h
  · exact ⟨h1, h2⟩
  · rw [applyContext_rv]
    cases ctx.recentlyViewedProductIds with
    | none => exact ⟨h1, h2⟩
    | some ids => exact ⟨pushUnique_nodup _ _ h1, pushUnique_length_le _ _⟩

/-- C9: the profile's recentlyViewedProductIds stays deduplicated and bounded
by 24 across chat turns: pushUnique keeps only the newest 24 after appending
the unseen ids (oldest dropped first), a single turn preserves the
no-duplicates and length-at-most-24 invariant, and any sequence of turns from
the empty profile satisfies it. -/
theorem recently_viewed_c9 :
    (∀ list values : List Int, pushUnique list values =
      (pushUniqueAll list values).drop ((pushUniqueAll list values).length - 24)) ∧
    (∀ (catalog : List Product) (message : String) (ctx : Context)
      (p0 : ShopperProfile) (orc : Oracles),
      p0.recentlyViewedProductIds.Nodup → p0.recentlyViewedProductIds.length ≤ 24 →
      (chatTurn catalog message ctx p0 orc).profile.recentlyViewedProductIds.Nodup ∧
      (chatTurn catalog message ctx p0 orc).profile.recentlyViewedProductIds.length
        ≤ 24) ∧
    (∀ turns : List TurnInput,
      (runTurns turns emptyProfile).recentlyViewedProductIds.Nodup ∧
      (runTurns turns emptyProfile).recentlyViewedProductIds.length ≤ 24) := by
  refine ⟨pushUnique_eq_drop, chatTurn_rv_inv, ?_⟩
  intro turns
  suffices h : ∀ p0 : ShopperProfile, p0.recentlyViewedProductIds.Nodup →
      p0.recentlyViewedProductIds.length ≤ 24 →
      (runTurns turns p0).recentlyViewedProductIds.Nodup ∧
      (runTurns turns p0).recentlyViewedProductIds.length ≤ 24 by
    exact h emptyProfile (by simp [emptyProfile]) (by simp [emptyProfile])
  induction turns with
  | nil => intro p0 h1 h2; exact ⟨h1, h2⟩
  | cons t ts ih =>
    intro p0 h1 h2
    have step := chatTurn_rv_inv t.catalog t.message t.ctx p0 t.orc h1 h2
    exact ih _ step.1 step.2

theorem recently_viewed_c9_witness :
    ([] : List Int).Nodup ∧ ([] : List Int).length ≤ 24 ∧
    ((chatTurn [sampleLoafer] "add this to my cart"
        { emptyContext with recentlyViewedProductIds := some [9, 5, 9] }
        sampleProfile5 stubOracles).profile.recentlyViewedProductIds.Nodup ∧
      (chatTurn [sampleLoafer] "add this to my cart"
        { emptyContext with recentlyViewedProductIds := some [9, 5, 9] }
        sampleProfile5 stubOracles).profile.recentlyViewedProductIds.length ≤ 24) :=
  ⟨by decide, by decide,
    recently_viewed_c9.2.1 [sampleLoafer] "add this to my cart"
      { emptyContext with recentlyViewedProductIds := some [9, 5, 9] }
      sampleProfile5 stubOracles (by decide) (by decide)⟩

end Clerk
